import Mathlib

/-!
Shallow embedding of src/libcloud/drivers/bluebox.py (the Bluebox Blocks
driver) and of the interface of its external collaborators, together with
theorems settling the behavioural claims about it.

Python dicts with string keys are embedded as association lists with the
assignment semantics of dicts (replace the value of an existing key in
place, otherwise append).  Machine strings are Lean String, provider
status codes are Nat.  JSON decoding (the json.loads collaborator) is an
abstract parameter, since the json library is external to the repository.
-/

set_option autoImplicit false

namespace Bluebox

/-- Modelled from the spec: libcloud.types.NodeState (absent from src/), the
normalized lifecycle enum of section 3: PENDING, RUNNING, TERMINATED, UNKNOWN. -/
inductive NodeState where
  | PENDING
  | RUNNING
  | TERMINATED
  | UNKNOWN
deriving DecidableEq, Repr

/-- Modelled from the spec: libcloud.types.InvalidCredsError (absent from src/),
an exception value carrying a single message string. -/
structure InvalidCredsError where
  message : String
deriving DecidableEq, Repr

/-- Assignment on a string-keyed dict: replace the value of an existing key in
place, otherwise append the new binding (Python dict assignment semantics). -/
def dictSet {V : Type} : List (String × V) → String → V → List (String × V)
  | [], k, v => [(k, v)]
  | p :: rest, k, v => if p.1 = k then (k, v) :: rest else p :: dictSet rest k v

/-- Lookup on a string-keyed dict. -/
def dictGet {V : Type} : List (String × V) → String → Option V
  | [], _ => none
  | p :: rest, k => if p.1 = k then some p.2 else dictGet rest k

/-- Raw fields of an HTTP response as seen by BlueboxResponse: status code,
body text and error text (the reason phrase). -/
structure BlueboxResponse where
  status : Nat
  body : String
  error : String
deriving DecidableEq, Repr

/-- Result of body decoding: either a structured (JSON) value or the raw body. -/
inductive Payload (J : Type) where
  | parsed (js : J)
  | raw (body : String)
deriving DecidableEq, Repr

/-- Embedding of BlueboxResponse.parse_body (bluebox.py lines 76-81): try
json.loads on the body and return its result; on a decode failure (ValueError)
return the raw body itself.  The decoder json.loads is an abstract parameter;
returning none stands for it raising ValueError. -/
def parse_body {J : Type} (loads : String → Option J) (body : String) : Payload J :=
  match loads body with
  | some js => Payload.parsed js
  | none => Payload.raw body

/-- Embedding of BlueboxResponse.parse_error (bluebox.py lines 83-89): a 401
status raises InvalidCredsError, with message str(status) followed by the error
text when the body is empty (falsy) and the body itself otherwise; any other
status returns the body. -/
def parse_error (r : BlueboxResponse) : Except InvalidCredsError String :=
  if r.status = 401 then
    if r.body = "" then
      Except.error ⟨toString r.status ++ ": " ++ r.error⟩
    else
      Except.error ⟨r.body⟩
  else
    Except.ok r.body

/-- Standard base64 alphabet. -/
def b64Alphabet : List Char :=
  "ABCDEFGHIJKLMNOPQRSTUVWXYZabcdefghijklmnopqrstuvwxyz0123456789+/".toList

/-- Character of the base64 alphabet at a 6-bit index. -/
def b64Char (n : Nat) : Char := b64Alphabet.getD n '='

/-- Base64 encoding of a byte list, three input bytes to four output
characters, padded with the equals sign. -/
def b64encodeBytes : List Nat → List Char
  | [] => []
  | [a] => [b64Char (a / 4), b64Char (a % 4 * 16), '=', '=']
  | [a, b] =>
      [b64Char (a / 4), b64Char (a % 4 * 16 + b / 16), b64Char (b % 16 * 4), '=']
  | a :: b :: c :: rest =>
      b64Char (a / 4) :: b64Char (a % 4 * 16 + b / 16) ::
        b64Char (b % 16 * 4 + c / 64) :: b64Char (c % 64) :: b64encodeBytes rest

/-- Embedding of base64.b64encode on a Python byte string. -/
def b64encode (s : String) : String :=
  String.mk (b64encodeBytes (s.toList.map Char.toNat))

/-- Embedding of BlueboxConnection.add_default_headers (bluebox.py lines
108-111): set the Authorization header to Basic followed by the base64 of
user_id, a colon, and key, overwriting any existing value of that header. -/
def add_default_headers (user_id key : String)
    (headers : List (String × String)) : List (String × String) :=
  dictSet headers "Authorization" ("Basic " ++ b64encode (user_id ++ ":" ++ key))

/-- Modelled from the spec: libcloud.base ConnectionUserAndKey.request (absent
from src/) applies add_default_headers to the caller-supplied headers of every
outgoing request before dispatch, for any method and path (spec sections 4.2
and 6).  The method and path arguments are carried to state that the decoration
does not depend on them. -/
def request_headers (user_id key : String) (_method _path : String)
    (headers : List (String × String)) : List (String × String) :=
  add_default_headers user_id key headers

/-- One entry of the static instance-size catalog: id, display name, RAM in MB,
disk in GB, virtual CPU count and hourly cost. -/
structure CatalogEntry where
  id : String
  name : String
  ram : Nat
  disk : Nat
  cpu : ℚ
  cost : ℚ
deriving DecidableEq, Repr

/-- Embedding of the catalog literal assigned to BLUEBOX_INSTANCE_TYPES at
bluebox.py lines 35-68, the four-entry table the comment at lines 32-33 says is
listed explicitly because the provider has no discovery endpoint. -/
def BLUEBOX_INSTANCE_TYPES_catalog : List (String × CatalogEntry) :=
  [ ("1gb",
      { id := "94fd37a7-2606-47f7-84d5-9000deda52ae",
        name := "Block 1GB Virtual Server",
        ram := 1024, disk := 20, cpu := 1/2, cost := 3/20 }),
    ("2gb",
      { id := "b412f354-5056-4bf0-a42f-6ddd998aa092",
        name := "Block 2GB Virtual Server",
        ram := 2048, disk := 25, cpu := 1, cost := 1/4 }),
    ("4gb",
      { id := "0cd183d3-0287-4b1a-8288-b3ea8302ed58",
        name := "Block 4GB Virtual Server",
        ram := 4096, disk := 50, cpu := 2, cost := 7/20 }),
    ("8gb",
      { id := "b9b87a5b-2885-4a2e-b434-44a163ca6251",
        name := "Block 8GB Virtual Server",
        ram := 8192, disk := 100, cpu := 4, cost := 9/20 }) ]

/-- Embedding of the rebinding at bluebox.py line 113: after the response and
connection classes, the module assigns the empty dict to BLUEBOX_INSTANCE_TYPES
again, so this empty table is the value of the name in effect when any method
of the driver runs. -/
def BLUEBOX_INSTANCE_TYPES : List (String × CatalogEntry) := []

/-- Embedding of RAM_PER_CPU (bluebox.py line 114). -/
def RAM_PER_CPU : Nat := 2048

/-- Embedding of NODE_STATE_MAP (bluebox.py lines 116-120). -/
def NODE_STATE_MAP : List (String × NodeState) :=
  [ ("queued", NodeState.PENDING),
    ("building", NodeState.PENDING),
    ("running", NodeState.RUNNING),
    ("error", NodeState.TERMINATED),
    ("unknown", NodeState.UNKNOWN) ]

/-- Modelled from the spec: the Normalized Size constructor (libcloud.base
NodeSize, absent from src/) accepts the field set enumerated in section 3 of
the spec, the same fields as a catalog entry. -/
structure NodeSize where
  id : String
  name : String
  ram : Nat
  disk : Nat
  cpu : ℚ
  cost : ℚ
deriving DecidableEq, Repr

/-- Embedding of BlueboxNodeDriver.list_sizes (bluebox.py lines 135-137): one
NodeSize per value of BLUEBOX_INSTANCE_TYPES as bound at the call, the location
argument ignored. -/
def list_sizes (_location : Option Unit) : List NodeSize :=
  BLUEBOX_INSTANCE_TYPES.map (fun p =>
    { id := p.2.id, name := p.2.name, ram := p.2.ram,
      disk := p.2.disk, cpu := p.2.cpu, cost := p.2.cost })

/-- One IP record of a remote node representation, with its address field. -/
structure IPRecord where
  address : String
deriving DecidableEq, Repr

/-- Remote node representation: the fields of a provider record that _to_node
reads (id, hostname, status, ips, storage, cpu).  The storage and cpu
descriptors are opaque to the driver and embedded as strings. -/
structure RemoteVM where
  id : String
  hostname : String
  status : String
  ips : List IPRecord
  storage : String
  cpu : String
deriving DecidableEq, Repr

/-- Modelled from the spec: the Normalized Node constructor (libcloud.base
Node, absent from src/) accepts the field set enumerated in section 3 of the
spec; the driver reference is omitted as opaque. -/
structure Node where
  id : String
  name : String
  state : NodeState
  public_ip : List String
  private_ip : List String
  extra : List (String × String)
deriving DecidableEq, Repr

/-- Embedding of BlueboxNodeDriver._to_node (bluebox.py lines 185-198): state
is RUNNING when the status string is running and PENDING otherwise; name is the
hostname; public_ip collects the address of each ip record in order; private_ip
is empty; extra holds the storage and cpu descriptors. -/
def _to_node (vm : RemoteVM) : Node :=
  { id := vm.id,
    name := vm.hostname,
    state := if vm.status = "running" then NodeState.RUNNING else NodeState.PENDING,
    public_ip := vm.ips.map IPRecord.address,
    private_ip := [],
    extra := [("storage", vm.storage), ("cpu", vm.cpu)] }

/-- Request record handed to the connection: path and HTTP method. -/
structure HttpRequest where
  path : String
  method : String
deriving DecidableEq, Repr

/-- Embedding of the request issued by BlueboxNodeDriver.destroy_node
(bluebox.py line 173).  The Python source writes the path as a plain string
containing Ruby-style interpolation syntax, which Python does not interpolate,
so the path is this constant literal whatever the node is. -/
def destroy_node_request (_node : Node) : HttpRequest :=
  { path := "/api/blocks/#\x7bnode.id\x7d.json", method := "DELETE" }

/-- Embedding of the request issued by BlueboxNodeDriver.reboot_node
(bluebox.py line 181); the same uninterpolated Ruby-style literal. -/
def reboot_node_request (_node : Node) : HttpRequest :=
  { path := "/api/blocks/#\x7bnode.id\x7d/reboot.json", method := "PUT" }

/-- Modelled from the spec: request routing of libcloud.base (absent from
src/) per spec sections 4.1 and 4.2 - every response is routed through the
response interpreter before being handed back, so an InvalidCredsError raised
by parse_error (a 401, per the src embedding above) propagates out of the
request, and any other response is handed back.  destroy_node (bluebox.py
lines 169-175) then returns whether the response status equals 200. -/
def destroy_node_result (resp : BlueboxResponse) : Except InvalidCredsError Bool :=
  match parse_error resp with
  | Except.error e => Except.error e
  | Except.ok _ => Except.ok (resp.status == 200)

/-- Keyword arguments of create_node that the body reads; every key is
accessed unconditionally, so all are required.  Only the ram field of the size
argument is read. -/
structure CreateKwargs where
  size_ram : Nat
  product : String
  template : String
  password : String
  ssh_key : String
  username : String
  hostname : String
deriving DecidableEq, Repr

/-- Python runtime error raised by the embedded code. -/
inductive PyErr where
  | nameError (n : String)
deriving DecidableEq, Repr

/-- Embedding of the params dict assembled by create_node (bluebox.py lines
151-163): the five required fields, username replaced by deploy when it is the
empty string, and hostname added when truthy (non-empty). -/
def create_node_params (kw : CreateKwargs) : List (String × String) :=
  let params0 :=
    [ ("product", kw.product), ("template", kw.template),
      ("password", kw.password), ("ssh_key", kw.ssh_key),
      ("username", kw.username) ]
  let params1 := if kw.username = "" then dictSet params0 "username" "deploy" else params0
  if kw.hostname ≠ "" then dictSet params1 "hostname" kw.hostname else params1

/-- Embedding of BlueboxNodeDriver.create_node (bluebox.py lines 147-167): it
computes a dead cores value, assembles the params dict, and then at line 165
serializes the name request, which is bound nowhere in the module or the
function, so the call raises NameError before any request is transmitted. -/
def create_node (kw : CreateKwargs) : Except PyErr Node :=
  let _cores := kw.size_ram / RAM_PER_CPU
  let _params := create_node_params kw
  Except.error (PyErr.nameError "request")

deriving instance DecidableEq for Except

/-! Helper lemmas shared by the claim theorems. -/

/-- Lookup after assignment on a dict yields the assigned value, whatever was
bound to the key before. -/
theorem dictGet_dictSet {V : Type} (d : List (String × V)) (k : String) (v : V) :
    dictGet (dictSet d k v) k = some v := by
  induction d with
  | nil => simp [dictSet, dictGet]
  | cons p rest ih =>
      by_cases h : p.1 = k
      · simp [dictSet, dictGet, h]
      · simp [dictSet, dictGet, h, ih]

/-- Rendering of the literal 401 as a string. -/
theorem toString_401 : toString (401 : Nat) = "401" := rfl

/-- Behaviour of parse_error on a 401 response. -/
theorem parse_error_of_401 (r : BlueboxResponse) (h : r.status = 401) :
    parse_error r =
      Except.error ⟨if r.body = "" then "401: " ++ r.error else r.body⟩ := by
  unfold parse_error
  rw [h, toString_401]
  by_cases hb : r.body = "" <;> simp [hb]

/-- Behaviour of parse_error on any non-401 response. -/
theorem parse_error_of_ne_401 (r : BlueboxResponse) (h : r.status ≠ 401) :
    parse_error r = Except.ok r.body := by
  unfold parse_error
  simp [h]

/-- Sanity check of the base64 embedding on the classic example. -/
theorem b64encode_example : b64encode "Man" = "TWFu" := by decide

/-- Username field of the assembled create_node params dict: deploy when the
argument is the empty string, the argument itself otherwise. -/
theorem create_node_params_username (kw : CreateKwargs) :
    dictGet (create_node_params kw) "username" =
      some (if kw.username = "" then "deploy" else kw.username) := by
  unfold create_node_params
  by_cases hu : kw.username = "" <;>
    by_cases hh : kw.hostname = "" <;>
      simp [hu, hh, dictSet, dictGet]

/-! Concrete fixtures used by counterexamples and witnesses. -/

/-- Concrete node with id node-a. -/
def nodeA : Node :=
  { id := "node-a", name := "a.example.org", state := NodeState.RUNNING,
    public_ip := ["10.0.0.1"], private_ip := [], extra := [] }

/-- Concrete node with id node-b. -/
def nodeB : Node :=
  { id := "node-b", name := "b.example.org", state := NodeState.PENDING,
    public_ip := [], private_ip := [], extra := [] }

/-- Concrete 401 response with an empty body. -/
def resp401empty : BlueboxResponse :=
  { status := 401, body := "", error := "Unauthorized" }

/-- Concrete 401 response with a non-empty body. -/
def resp401denied : BlueboxResponse :=
  { status := 401, body := "denied", error := "Unauthorized" }

/-- Concrete 404 response. -/
def resp404 : BlueboxResponse :=
  { status := 404, body := "no such block", error := "Not Found" }

/-- Concrete 500 response whose body is not decodable JSON. -/
def resp500 : BlueboxResponse :=
  { status := 500, body := "<html>oops</html>", error := "Server Error" }

/-- Concrete create_node keyword arguments with an empty username. -/
def kwEmptyUsername : CreateKwargs :=
  { size_ram := 2048, product := "b412f354-5056-4bf0-a42f-6ddd998aa092",
    template := "tmpl-1", password := "s3cret", ssh_key := "ssh-rsa AAAA",
    username := "", hostname := "box1" }

/-! Claim theorems. -/

/-- C1: the claim fails on the code.  list_sizes returns the empty list for
every location argument, because bluebox.py line 113 rebinds
BLUEBOX_INSTANCE_TYPES to the empty dict after the classes are defined,
although the static catalog written at lines 35-68 has the four keys 1gb, 2gb,
4gb and 8gb; so the result does not contain one NodeSize per key of that
catalog. -/
theorem C1_list_sizes_empty :
    (∀ loc : Option Unit, list_sizes loc = []) ∧
      BLUEBOX_INSTANCE_TYPES = [] ∧
      BLUEBOX_INSTANCE_TYPES_catalog.map Prod.fst = ["1gb", "2gb", "4gb", "8gb"] :=
  ⟨fun _ => rfl, rfl, rfl⟩

/-- C2: the claim fails on the code.  The paths of the destroy and reboot
requests are constant string literals containing uninterpolated Ruby-style
interpolation syntax, so two nodes with distinct ids are sent to the same
path and the path is not a function of the node id; only the methods DELETE
and PUT match the claim. -/
theorem C2_request_path_constant :
    nodeA.id ≠ nodeB.id ∧
      destroy_node_request nodeA = destroy_node_request nodeB ∧
      reboot_node_request nodeA = reboot_node_request nodeB ∧
      (destroy_node_request nodeA).path = "/api/blocks/#\x7bnode.id\x7d.json" ∧
      (reboot_node_request nodeA).path = "/api/blocks/#\x7bnode.id\x7d/reboot.json" ∧
      (destroy_node_request nodeA).method = "DELETE" ∧
      (reboot_node_request nodeA).method = "PUT" :=
  ⟨by decide, rfl, rfl, rfl, rfl, rfl, rfl⟩

/-- C3: the claim fails on the code.  create_node assembles a params dict in
which an empty username is replaced by deploy, but line 165 serializes the
unbound name request instead of params, so the call raises NameError and no
username is ever transmitted; here evaluated at a call with an empty
username. -/
theorem C3_create_node_raises :
    create_node kwEmptyUsername = Except.error (PyErr.nameError "request") ∧
      dictGet (create_node_params kwEmptyUsername) "username" = some "deploy" :=
  ⟨rfl, rfl⟩

/-- C4: _to_node assigns state RUNNING exactly when the status string of the
record equals running, and PENDING for every other status string. -/
theorem C4_to_node_state (vm : RemoteVM) :
    (_to_node vm).state =
      if vm.status = "running" then NodeState.RUNNING else NodeState.PENDING :=
  rfl

/-- C5: NODE_STATE_MAP is defined on each of the five provider status strings
and maps queued and building to PENDING, running to RUNNING, error to
TERMINATED and unknown to UNKNOWN. -/
theorem C5_node_state_map :
    dictGet NODE_STATE_MAP "queued" = some NodeState.PENDING ∧
      dictGet NODE_STATE_MAP "building" = some NodeState.PENDING ∧
      dictGet NODE_STATE_MAP "running" = some NodeState.RUNNING ∧
      dictGet NODE_STATE_MAP "error" = some NodeState.TERMINATED ∧
      dictGet NODE_STATE_MAP "unknown" = some NodeState.UNKNOWN :=
  ⟨rfl, rfl, rfl, rfl, rfl⟩

/-- C6: on a 401 response, parse_error fails with InvalidCredsError whose
message is the body verbatim when the body is non-empty and the string 401,
a colon and a space, then the error text when the body is empty. -/
theorem C6_parse_error_401 (r : BlueboxResponse) (h : r.status = 401) :
    parse_error r =
      Except.error ⟨if r.body = "" then "401: " ++ r.error else r.body⟩ :=
  parse_error_of_401 r h

/-- C6 witness: the theorem applied to a concrete empty-body 401 and to a
concrete non-empty-body 401. -/
theorem C6_parse_error_401_witness :
    parse_error resp401empty = Except.error ⟨"401: Unauthorized"⟩ ∧
      parse_error resp401denied = Except.error ⟨"denied"⟩ := by
  constructor
  · rw [C6_parse_error_401 resp401empty rfl]; decide
  · rw [C6_parse_error_401 resp401denied rfl]; decide

/-- C7 counterexample: at a 401 response, destroy_node raises InvalidCredsError
out of the request instead of returning false, so the claim that every non-200
status yields false without raising is false at this input. -/
theorem C7_counterexample :
    destroy_node_result resp401denied = Except.error ⟨"denied"⟩ ∧
      destroy_node_result resp401denied ≠ Except.ok false :=
  ⟨rfl, by decide⟩

/-- C7 amended: destroy_node returns true iff the response status is exactly
200 and returns false without raising for every other non-401 status; a 401
response instead raises InvalidCredsError with the parse_error message. -/
theorem C7_destroy_node_result (resp : BlueboxResponse) :
    (resp.status ≠ 401 →
        destroy_node_result resp = Except.ok (resp.status == 200)) ∧
      (resp.status = 401 →
        destroy_node_result resp =
          Except.error ⟨if resp.body = "" then "401: " ++ resp.error else resp.body⟩) := by
  constructor
  · intro h
    unfold destroy_node_result
    rw [parse_error_of_ne_401 resp h]
  · intro h
    unfold destroy_node_result
    rw [parse_error_of_401 resp h]

/-- C7 witness: the amended theorem applied to a concrete 404 response, where
destroy_node returns false, and to a concrete 200-free check that a 401
raises. -/
theorem C7_destroy_node_result_witness :
    destroy_node_result resp404 = Except.ok false ∧
      destroy_node_result resp401empty = Except.error ⟨"401: Unauthorized"⟩ := by
  constructor
  · rw [(C7_destroy_node_result resp404).1 (by decide)]; decide
  · rw [(C7_destroy_node_result resp401empty).2 rfl]; decide

/-- C8: for a response whose status is neither 200 nor 401, parse_error
returns the body as the payload without raising, and a body on which
structured decoding fails is returned raw and verbatim by parse_body. -/
theorem C8_undecoded_body_passthrough {J : Type} (loads : String → Option J)
    (r : BlueboxResponse) (_h200 : r.status ≠ 200) (h401 : r.status ≠ 401)
    (hdec : loads r.body = none) :
    parse_error r = Except.ok r.body ∧
      parse_body loads r.body = Payload.raw r.body :=
  ⟨parse_error_of_ne_401 r h401, by unfold parse_body; rw [hdec]⟩

/-- C8 witness: the theorem applied to a concrete 500 response whose body is
not decodable. -/
theorem C8_undecoded_body_passthrough_witness :
    parse_error resp500 = Except.ok "<html>oops</html>" ∧
      parse_body (fun _ => (none : Option Unit)) "<html>oops</html>" =
        Payload.raw "<html>oops</html>" :=
  C8_undecoded_body_passthrough (fun _ => (none : Option Unit)) resp500
    (by decide) (by decide) rfl

/-- C9: for every outgoing request, whatever the method, the path and the
caller-supplied headers (including a caller-supplied Authorization value, which
is overwritten), the transmitted headers bind Authorization to the string Basic
followed by a space and the base64 of identity, a colon and the secret key. -/
theorem C9_authorization_header (user_id key method path : String)
    (headers : List (String × String)) :
    dictGet (request_headers user_id key method path headers) "Authorization" =
      some ("Basic " ++ b64encode (user_id ++ ":" ++ key)) :=
  dictGet_dictSet headers "Authorization" ("Basic " ++ b64encode (user_id ++ ":" ++ key))

/-- C10: _to_node always produces a node with an empty private IP list, with
the public IP list equal to the address fields of the ips of the record in
provider order, and with an extra bag holding exactly the storage and cpu
descriptors of the record. -/
theorem C10_to_node_fields (vm : RemoteVM) :
    (_to_node vm).private_ip = [] ∧
      (_to_node vm).public_ip = vm.ips.map IPRecord.address ∧
      (_to_node vm).extra = [("storage", vm.storage), ("cpu", vm.cpu)] :=
  ⟨rfl, rfl, rfl⟩

end Bluebox
